import Mathlib

/-!
Verification of the Flappy Bird simulation engine (src/flappy-bird.tsx).

The engine state (bird, pipe list, score, game state, high score) and its
operations (`initGame`, `jump`, `generatePipe`, `checkCollision`, and the
per-frame `gameLoop`, here called `tick`) are embedded shallowly.
Coordinates and velocities are rationals; the random draw consumed by
`generatePipe` is passed explicitly as a rational `r` (the source calls
`Math.random()`, which yields a value in `[0, 1)`).

React state-update semantics are modelled faithfully: inside one `gameLoop`
invocation the closure variable `score` holds the value from before the
tick, while `setScore`/`setPipes` updates are applied functionally.  In
particular the `setHighScore((prev) => Math.max(prev, score))` call on
collision reads the pre-tick `score`.
-/

namespace FlappyBird

/-- Bird record: fixed horizontal position `x`, vertical position `y`,
vertical `velocity` (source lines 7-11). -/
structure Bird where
  x : ℚ
  y : ℚ
  velocity : ℚ
  deriving DecidableEq, Repr

/-- Pipe record: horizontal position `x`, gap top edge `topHeight`, gap
bottom edge `bottomY`, scoring flag `passed` (source lines 13-18). -/
structure Pipe where
  x : ℚ
  topHeight : ℚ
  bottomY : ℚ
  passed : Bool
  deriving DecidableEq, Repr

/-- Game state enumeration (source line 36). -/
inductive GameState where
  | menu
  | playing
  | gameOver
  deriving DecidableEq, Repr

/-- Full engine state: the five React state cells (source lines 33-37). -/
structure EngineState where
  bird : Bird
  pipes : List Pipe
  score : ℕ
  gameState : GameState
  highScore : ℕ
  deriving DecidableEq, Repr

def CANVAS_WIDTH : ℚ := 400
def CANVAS_HEIGHT : ℚ := 600
def BIRD_SIZE : ℚ := 20
def PIPE_WIDTH : ℚ := 60
def PIPE_GAP : ℚ := 150
def GRAVITY : ℚ := 1/2
def JUMP_FORCE : ℚ := -8
def PIPE_SPEED : ℚ := 2

/-- The bird value installed by `initGame` and by the initial `useState`
(source lines 33 and 41). -/
def startBird : Bird := { x := 100, y := 300, velocity := 0 }

/-- `initGame` (source lines 40-45): reset bird, clear pipes, zero score,
enter the playing state.  The high score cell is not touched. -/
def initGame (s : EngineState) : EngineState :=
  { s with bird := startBird, pipes := [], score := 0, gameState := .playing }

/-- `jump` (source lines 48-54): while playing, set the bird's velocity to
`JUMP_FORCE`; from the menu or game-over screens, restart via `initGame`. -/
def jump (s : EngineState) : EngineState :=
  if s.gameState = .playing then
    { s with bird := { s.bird with velocity := JUMP_FORCE } }
  else if s.gameState = .menu ∨ s.gameState = .gameOver then
    initGame s
  else
    s

/-- `generatePipe` (source lines 57-65) with the `Math.random()` draw `r`
made explicit: `topHeight = r * (CANVAS_HEIGHT - PIPE_GAP - 100) + 50`,
spawn at the right edge, gap of height `PIPE_GAP`, not yet passed. -/
def generatePipe (r : ℚ) : Pipe :=
  let topHeight := r * (CANVAS_HEIGHT - PIPE_GAP - 100) + 50
  { x := CANVAS_WIDTH
    topHeight := topHeight
    bottomY := topHeight + PIPE_GAP
    passed := false }

/-- `checkCollision` (source lines 68-86): ceiling/ground test, then a scan
of the pipes for horizontal overlap combined with the bird leaving the gap. -/
def checkCollision (bird : Bird) (pipes : List Pipe) : Bool :=
  if bird.y ≤ 0 ∨ bird.y ≥ CANVAS_HEIGHT - BIRD_SIZE then
    true
  else
    pipes.any fun pipe =>
      decide (bird.x + BIRD_SIZE > pipe.x ∧ bird.x < pipe.x + PIPE_WIDTH ∧
        (bird.y < pipe.topHeight ∨ bird.y + BIRD_SIZE > pipe.bottomY))

/-- Source line 100: `prevPipes.map((pipe) => ({ ...pipe, x: pipe.x - PIPE_SPEED }))`. -/
def movePipes (pipes : List Pipe) : List Pipe :=
  pipes.map fun pipe => { pipe with x := pipe.x - PIPE_SPEED }

/-- Source line 103: `newPipes.filter((pipe) => pipe.x > -PIPE_WIDTH)`. -/
def cullPipes (pipes : List Pipe) : List Pipe :=
  pipes.filter fun pipe => decide (pipe.x > -PIPE_WIDTH)

/-- Source line 106: the spawn condition
`newPipes.length === 0 || newPipes[newPipes.length - 1].x < CANVAS_WIDTH - 200`. -/
def needSpawn (pipes : List Pipe) : Bool :=
  match pipes.getLast? with
  | none => true
  | some p => decide (p.x < CANVAS_WIDTH - 200)

/-- Source lines 106-108: push one freshly generated pipe when needed. -/
def spawnPipes (r : ℚ) (pipes : List Pipe) : List Pipe :=
  if needSpawn pipes then pipes ++ [generatePipe r] else pipes

/-- The scoring predicate of source line 112:
`!pipe.passed && pipe.x + PIPE_WIDTH < newBird.x`. -/
def scoresNow (birdX : ℚ) (pipe : Pipe) : Bool :=
  !pipe.passed && decide (pipe.x + PIPE_WIDTH < birdX)

/-- Source lines 111-116, effect on the pipes: every pipe satisfying the
scoring predicate gets `passed := true`. -/
def markPassed (birdX : ℚ) (pipes : List Pipe) : List Pipe :=
  pipes.map fun pipe =>
    if scoresNow birdX pipe then { pipe with passed := true } else pipe

/-- Source lines 111-116, effect on the score: one `setScore((prev) => prev + 1)`
per pipe satisfying the scoring predicate. -/
def passCount (birdX : ℚ) (pipes : List Pipe) : ℕ :=
  pipes.countP fun pipe => scoresNow birdX pipe

/-- One invocation of `gameLoop` (source lines 89-128) with the random draw
`r` made explicit.  No-op unless playing; otherwise: integrate the bird
(both updates read `prev.velocity`, lines 95-96), move, cull and possibly
spawn pipes, mark passed pipes and bump the score, then test collision with
the new bird and updated pipes; on collision enter game over and raise the
high score using the pre-tick closure value `score` (line 121). -/
def tick (r : ℚ) (s : EngineState) : EngineState :=
  if s.gameState ≠ .playing then s
  else
    let newBird : Bird :=
      { s.bird with
          velocity := s.bird.velocity + GRAVITY
          y := s.bird.y + s.bird.velocity + GRAVITY }
    let pipes1 : List Pipe := spawnPipes r (cullPipes (movePipes s.pipes))
    let newScore : ℕ := s.score + passCount newBird.x pipes1
    let newPipes : List Pipe := markPassed newBird.x pipes1
    if checkCollision newBird newPipes then
      { bird := newBird, pipes := newPipes, score := newScore,
        gameState := .gameOver, highScore := max s.highScore s.score }
    else
      { bird := newBird, pipes := newPipes, score := newScore,
        gameState := s.gameState, highScore := s.highScore }

/-- External events driving the engine: one animation frame (with its
random draw) or one impulse (spacebar / click). -/
inductive Event where
  | frame (r : ℚ)
  | impulse
  deriving DecidableEq, Repr

/-- Apply one event to the engine state. -/
def stepEvent (e : Event) (s : EngineState) : EngineState :=
  match e with
  | .frame r => tick r s
  | .impulse => jump s

/-- Run a sequence of events from a state. -/
def runEvents (es : List Event) (s : EngineState) : EngineState :=
  es.foldl (fun t e => stepEvent e t) s

/-- Run a sequence of frames (ticks) from a state. -/
def runTicks (rs : List ℚ) (s : EngineState) : EngineState :=
  rs.foldl (fun t r => tick r t) s

/-- The initial mount state (source lines 33-37). -/
def initialState : EngineState :=
  { bird := startBird, pipes := [], score := 0, gameState := .menu, highScore := 0 }

/-- The state right after a fresh start: playing, no pipes, zero score. -/
def playingStart : EngineState :=
  { bird := startBird, pipes := [], score := 0, gameState := .playing, highScore := 0 }

/-- A playing state with one unpassed pipe just right of the point where its
right edge crosses the bird: after one tick the pipe is at `x = 39`, so its
right edge `99` is left of the bird's `x = 100` and it scores. -/
def scoringState : EngineState :=
  { bird := startBird
    pipes := [{ x := 41, topHeight := 200, bottomY := 350, passed := false }]
    score := 0, gameState := .playing, highScore := 0 }

/-- A playing state in which the same tick both scores a point (the pipe
moves from `x = 41` to `x = 39`, right edge `99 < 100`) and ends the game
(the bird integrates from `y = 570` with velocity `10` to `y = 580.5`,
past the ground line `CANVAS_HEIGHT - BIRD_SIZE = 580`). -/
def stalePointState : EngineState :=
  { bird := { x := 100, y := 570, velocity := 10 }
    pipes := [{ x := 41, topHeight := 200, bottomY := 350, passed := false }]
    score := 5, gameState := .playing, highScore := 3 }

/-- A playing state about to crash into the ground with score `1` and
high score `0`. -/
def crashState : EngineState :=
  { bird := { x := 100, y := 590, velocity := 0 }
    pipes := [], score := 1, gameState := .playing, highScore := 0 }

/-- The gap invariant of the spec: every pipe in the state has
`bottomY - topHeight = PIPE_GAP`. -/
def gapInv (s : EngineState) : Prop :=
  ∀ p ∈ s.pipes, p.bottomY - p.topHeight = PIPE_GAP

theorem tick_not_playing (r : ℚ) (s : EngineState) (h : s.gameState ≠ .playing) :
    tick r s = s := by
  simp [tick, h]

theorem tick_bird (r : ℚ) (s : EngineState) (h : s.gameState = .playing) :
    (tick r s).bird =
      { s.bird with
          velocity := s.bird.velocity + GRAVITY
          y := s.bird.y + s.bird.velocity + GRAVITY } := by
  unfold tick
  rw [if_neg (by simp [h])]
  dsimp only
  split <;> rfl

theorem tick_pipes (r : ℚ) (s : EngineState) (h : s.gameState = .playing) :
    (tick r s).pipes = markPassed s.bird.x (spawnPipes r (cullPipes (movePipes s.pipes))) := by
  unfold tick
  rw [if_neg (by simp [h])]
  dsimp only
  split <;> rfl

theorem tick_score (r : ℚ) (s : EngineState) (h : s.gameState = .playing) :
    (tick r s).score = s.score + passCount s.bird.x (spawnPipes r (cullPipes (movePipes s.pipes))) := by
  unfold tick
  rw [if_neg (by simp [h])]
  dsimp only
  split <;> rfl

/-- Claim C3: the collision predicate. -/
theorem C3_checkCollision_spec :
    (∀ (bird : Bird) (pipes : List Pipe),
        checkCollision bird pipes = true ↔
          bird.y ≤ 0 ∨ bird.y ≥ CANVAS_HEIGHT - BIRD_SIZE ∨
            ∃ pipe ∈ pipes,
              (pipe.x < bird.x + BIRD_SIZE ∧ bird.x < pipe.x + PIPE_WIDTH) ∧
                (bird.y < pipe.topHeight ∨ bird.y + BIRD_SIZE > pipe.bottomY)) ∧
    (∀ (bird : Bird) (pipes : List Pipe), bird.y = -1 → checkCollision bird pipes = true) ∧
    (∀ (bird : Bird) (pipe : Pipe),
        0 < bird.y → bird.y < CANVAS_HEIGHT - BIRD_SIZE →
          pipe.topHeight ≤ bird.y → bird.y + BIRD_SIZE ≤ pipe.bottomY →
            checkCollision bird [pipe] = false) := by
  refine ⟨?_, ?_, ?_⟩
  · intro bird pipes
    by_cases h : bird.y ≤ 0 ∨ bird.y ≥ CANVAS_HEIGHT - BIRD_SIZE
    · unfold checkCollision
      rw [if_pos h]
      exact iff_of_true rfl (h.elim Or.inl (fun hh => Or.inr (Or.inl hh)))
    · unfold checkCollision
      rw [if_neg h, List.any_eq_true]
      push_neg at h
      constructor
      · rintro ⟨pipe, hmem, hp⟩
        rw [decide_eq_true_eq] at hp
        exact Or.inr (Or.inr ⟨pipe, hmem, ⟨hp.1, hp.2.1⟩, hp.2.2⟩)
      · rintro (hy | hy | ⟨pipe, hmem, ⟨h1, h2⟩, h3⟩)
        · exact absurd hy (not_le.mpr h.1)
        · exact absurd hy (not_le.mpr h.2)
        · exact ⟨pipe, hmem, by rw [decide_eq_true_eq]; exact ⟨h1, h2, h3⟩⟩
  · intro bird pipes hy
    simp [checkCollision, hy]
  · intro bird pipe h1 h2 h3 h4
    unfold checkCollision
    rw [if_neg (by push_neg; exact ⟨by linarith, by linarith⟩)]
    simp only [List.any_cons, List.any_nil, Bool.or_false]
    rw [decide_eq_false_iff_not]
    rintro ⟨hx1, hx2, hy | hy⟩ <;> linarith

/-- Claim C3 witness: a bird at `y = -1` collides with no pipes present. -/
theorem C3_witness : checkCollision { x := 100, y := -1, velocity := 0 } [] = true :=
  C3_checkCollision_spec.2.1 { x := 100, y := -1, velocity := 0 } [] rfl

/-- Claim C7: an impulse from the menu or game-over state restarts. -/
theorem C7_restart (s : EngineState)
    (h : s.gameState = .menu ∨ s.gameState = .gameOver) :
    jump s =
      { s with
          bird := { x := 100, y := 300, velocity := 0 }
          pipes := []
          score := 0
          gameState := .playing } := by
  rcases h with h | h <;> simp [jump, initGame, startBird, h]

/-- Claim C7 witness at the initial (menu) state. -/
theorem C7_witness :
    jump initialState =
      { initialState with
          bird := { x := 100, y := 300, velocity := 0 }
          pipes := []
          score := 0
          gameState := .playing } :=
  C7_restart initialState (Or.inl rfl)


/-- Claim C1 counterexample: from the start bird while playing, one tick
gives `y = 300.5`, not the claimed `301.0`. -/
theorem C1_counterexample :
    (tick 0 playingStart).bird.velocity = 1/2 ∧
    (tick 0 playingStart).bird.y = 601/2 ∧
    ¬ (tick 0 playingStart).bird.y = 301 := by
  norm_num [tick, playingStart, startBird, spawnPipes, cullPipes, movePipes, needSpawn,
    generatePipe, passCount, markPassed, scoresNow, checkCollision, GRAVITY, PIPE_SPEED,
    PIPE_WIDTH, CANVAS_WIDTH, CANVAS_HEIGHT, BIRD_SIZE, PIPE_GAP]

/-- Claim C1 amended: one tick from the start bird yields velocity `0.5`
and `y = 300.5`, because both updates read the pre-tick velocity. -/
theorem C1_tick_integration (r : ℚ) (sc hs : ℕ) :
    (tick r { bird := startBird, pipes := [], score := sc,
              gameState := .playing, highScore := hs }).bird
      = { x := 100, y := 601/2, velocity := 1/2 } := by
  rw [tick_bird _ _ rfl]
  norm_num [startBird, GRAVITY]

/-- Claim C8: ticks are no-ops outside the playing state. -/
theorem C8_tick_noop (s : EngineState)
    (h : s.gameState = .menu ∨ s.gameState = .gameOver) :
    (∀ r : ℚ, tick r s = s) ∧ (∀ rs : List ℚ, runTicks rs s = s) := by
  have hne : s.gameState ≠ .playing := by rcases h with h | h <;> simp [h]
  refine ⟨fun r => tick_not_playing r s hne, ?_⟩
  intro rs
  induction rs with
  | nil => rfl
  | cons a l ih =>
    rw [runTicks, List.foldl_cons, tick_not_playing a s hne]
    exact ih

/-- Claim C8 witness at the initial (menu) state. -/
theorem C8_witness :
    tick 0 initialState = initialState ∧ runTicks [0, 1/2, 1/3] initialState = initialState :=
  ⟨(C8_tick_noop initialState (Or.inl rfl)).1 0,
   (C8_tick_noop initialState (Or.inl rfl)).2 [0, 1/2, 1/3]⟩

/-- Claim C10: generated pipes keep the gap inside the canvas. -/
theorem C10_generatePipe_bounds (r : ℚ) (h0 : 0 ≤ r) (h1 : r < 1) :
    50 ≤ (generatePipe r).topHeight ∧
    (generatePipe r).topHeight < CANVAS_HEIGHT - PIPE_GAP - 50 ∧
    (generatePipe r).bottomY ≤ CANVAS_HEIGHT - 50 ∧
    50 ≤ CANVAS_HEIGHT - (generatePipe r).bottomY := by
  refine ⟨?_, ?_, ?_, ?_⟩ <;>
    simp [generatePipe, CANVAS_HEIGHT, PIPE_GAP] <;> nlinarith

/-- Claim C10 witness at the draw `r = 1/2`. -/
theorem C10_witness :
    50 ≤ (generatePipe (1/2)).topHeight ∧
    (generatePipe (1/2)).topHeight < CANVAS_HEIGHT - PIPE_GAP - 50 ∧
    (generatePipe (1/2)).bottomY ≤ CANVAS_HEIGHT - 50 ∧
    50 ≤ CANVAS_HEIGHT - (generatePipe (1/2)).bottomY :=
  C10_generatePipe_bounds (1/2) (by norm_num) (by norm_num)

theorem mem_movePipes {p : Pipe} {l : List Pipe} (hp : p ∈ movePipes l) :
    ∃ q ∈ l, p = { q with x := q.x - PIPE_SPEED } := by
  simp only [movePipes, List.mem_map] at hp
  obtain ⟨q, hq, rfl⟩ := hp
  exact ⟨q, hq, rfl⟩

theorem mem_cullPipes {p : Pipe} {l : List Pipe} (hp : p ∈ cullPipes l) : p ∈ l :=
  List.mem_of_mem_filter hp

theorem mem_spawnPipes {r : ℚ} {p : Pipe} {l : List Pipe} (hp : p ∈ spawnPipes r l) :
    p ∈ l ∨ p = generatePipe r := by
  unfold spawnPipes at hp
  split at hp
  · rcases List.mem_append.mp hp with h | h
    · exact Or.inl h
    · exact Or.inr (List.mem_singleton.mp h)
  · exact Or.inl hp

theorem mem_markPassed {bx : ℚ} {p : Pipe} {l : List Pipe} (hp : p ∈ markPassed bx l) :
    ∃ q ∈ l, p.topHeight = q.topHeight ∧ p.bottomY = q.bottomY ∧ p.x = q.x := by
  simp only [markPassed, List.mem_map] at hp
  obtain ⟨q, hq, rfl⟩ := hp
  refine ⟨q, hq, ?_, ?_, ?_⟩ <;> by_cases hs : scoresNow bx q = true <;> simp [hs]

theorem jump_highScore (s : EngineState) : (jump s).highScore = s.highScore := by
  rcases hgs : s.gameState <;> simp [jump, initGame, hgs]

theorem tick_highScore_cases (r : ℚ) (s : EngineState) :
    (tick r s).highScore = s.highScore ∨
      ((tick r s).highScore = max s.highScore s.score ∧
        s.gameState = .playing ∧ (tick r s).gameState = .gameOver) := by
  by_cases h : s.gameState = .playing
  · unfold tick
    rw [if_neg (by simp [h])]
    dsimp only
    split
    · exact Or.inr ⟨rfl, h, rfl⟩
    · exact Or.inl rfl
  · exact Or.inl (by rw [tick_not_playing r s h])

/-- Claim C2 at the failing input: a tick that both scores a point and
collides.  The game ends with score `6`, but the high score becomes
`max 3 5 = 5`, not `max 3 6 = 6`: the code reads the pre-tick score. -/
theorem C2_stale_highScore :
    (tick 0 stalePointState).gameState = .gameOver ∧
    (tick 0 stalePointState).score = 6 ∧
    (tick 0 stalePointState).highScore = 5 ∧
    (tick 0 stalePointState).highScore ≠
      max stalePointState.highScore (tick 0 stalePointState).score := by
  norm_num [tick, stalePointState, spawnPipes, cullPipes, movePipes, needSpawn,
    generatePipe, passCount, markPassed, scoresNow, checkCollision, GRAVITY, PIPE_SPEED,
    PIPE_WIDTH, CANVAS_WIDTH, CANVAS_HEIGHT, BIRD_SIZE, PIPE_GAP]

/-- Claim C6: every pipe's gap height is `PIPE_GAP`, at generation and
preserved by every operation. -/
theorem C6_gap_invariant :
    gapInv initialState ∧
    (∀ r : ℚ, (generatePipe r).bottomY - (generatePipe r).topHeight = PIPE_GAP) ∧
    (∀ (r : ℚ) (s : EngineState), gapInv s → gapInv (tick r s)) ∧
    (∀ s : EngineState, gapInv s → gapInv (jump s)) ∧
    (∀ s : EngineState, gapInv s → gapInv (initGame s)) := by
  refine ⟨?_, ?_, ?_, ?_, ?_⟩
  · intro p hp
    simp [initialState] at hp
  · intro r
    simp [generatePipe]
  · intro r s hs
    by_cases hplay : s.gameState = .playing
    · intro p hp
      rw [tick_pipes r s hplay] at hp
      obtain ⟨q, hq, ht, hb, _⟩ := mem_markPassed hp
      rw [ht, hb]
      rcases mem_spawnPipes hq with hq2 | rfl
      · obtain ⟨q2, hq2m, rfl⟩ := mem_movePipes (mem_cullPipes hq2)
        exact hs q2 hq2m
      · simp [generatePipe]
    · rw [tick_not_playing r s hplay]
      exact hs
  · intro s hs p hp
    unfold jump at hp
    split at hp
    · exact hs p hp
    · split at hp
      · simp [initGame] at hp
      · exact hs p hp
  · intro s hs p hp
    simp [initGame] at hp

/-- Claim C6 witness: the pipe spawned by the first tick of a fresh game
has a gap of exactly `PIPE_GAP`. -/
theorem C6_witness : (generatePipe 0).bottomY - (generatePipe 0).topHeight = PIPE_GAP :=
  C6_gap_invariant.2.2.1 0 playingStart (by intro p hp; simp [playingStart] at hp)
    (generatePipe 0)
    (by norm_num [tick, playingStart, startBird, spawnPipes, cullPipes, movePipes,
      needSpawn, passCount, markPassed, scoresNow, checkCollision, generatePipe,
      GRAVITY, PIPE_SPEED, PIPE_WIDTH, CANVAS_WIDTH, CANVAS_HEIGHT, BIRD_SIZE, PIPE_GAP])

/-- Claim C9: the high score never decreases under any event sequence, and
it changes only on a frame that moves the playing state into game over;
impulses and resets leave it unchanged. -/
theorem C9_highScore_monotone :
    (∀ (e : Event) (s : EngineState), s.highScore ≤ (stepEvent e s).highScore) ∧
    (∀ (es : List Event) (s : EngineState), s.highScore ≤ (runEvents es s).highScore) ∧
    (∀ (e : Event) (s : EngineState),
        (stepEvent e s).highScore ≠ s.highScore →
          s.gameState = .playing ∧ (stepEvent e s).gameState = .gameOver ∧
            ∃ r : ℚ, e = .frame r) ∧
    (∀ s : EngineState, (jump s).highScore = s.highScore) ∧
    (∀ s : EngineState, (initGame s).highScore = s.highScore) := by
  have hstep : ∀ (e : Event) (s : EngineState), s.highScore ≤ (stepEvent e s).highScore := by
    intro e s
    cases e with
    | impulse => exact le_of_eq (jump_highScore s).symm
    | frame r =>
      rcases tick_highScore_cases r s with h | ⟨h, _, _⟩
      · exact le_of_eq h.symm
      · rw [stepEvent, h]
        exact le_max_left _ _
  refine ⟨hstep, ?_, ?_, jump_highScore, fun s => rfl⟩
  · intro es
    induction es with
    | nil => exact fun s => le_refl _
    | cons e l ih =>
      intro s
      calc s.highScore ≤ (stepEvent e s).highScore := hstep e s
        _ ≤ (runEvents l (stepEvent e s)).highScore := ih (stepEvent e s)
        _ = (runEvents (e :: l) s).highScore := rfl
  · intro e s hne
    cases e with
    | impulse => exact absurd (jump_highScore s) hne
    | frame r =>
      rcases tick_highScore_cases r s with h | ⟨_, hplay, hgo⟩
      · exact absurd h hne
      · exact ⟨hplay, hgo, r, rfl⟩

/-- Claim C9 witness: a crashing frame from `crashState` raises the high
score, and indeed that frame moves playing into game over. -/
theorem C9_witness :
    crashState.gameState = .playing ∧
    (stepEvent (.frame 0) crashState).gameState = .gameOver ∧
    ∃ r : ℚ, (Event.frame 0) = .frame r :=
  C9_highScore_monotone.2.2.1 (.frame 0) crashState
    (by norm_num [stepEvent, tick, crashState, spawnPipes, cullPipes, movePipes,
      needSpawn, generatePipe, passCount, markPassed, scoresNow, checkCollision,
      GRAVITY, PIPE_SPEED, PIPE_WIDTH, CANVAS_WIDTH, CANVAS_HEIGHT, BIRD_SIZE, PIPE_GAP])

theorem scoresNow_eq (bx : ℚ) (p : Pipe) :
    scoresNow bx p = decide (p.passed = false ∧ p.x + PIPE_WIDTH < bx) := by
  cases hp : p.passed <;> simp [scoresNow, hp]

theorem markPassed_marks (bx : ℚ) (l : List Pipe) :
    ∀ p ∈ markPassed bx l, p.x + PIPE_WIDTH < bx → p.passed = true := by
  intro p hp hx
  simp only [markPassed, List.mem_map] at hp
  obtain ⟨q, hq, rfl⟩ := hp
  by_cases hs : scoresNow bx q = true
  · simp [hs]
  · simp only [Bool.not_eq_true] at hs
    simp only [hs, Bool.false_eq_true, if_false] at hx ⊢
    cases hpassed : q.passed
    · exfalso
      rw [scoresNow, hpassed] at hs
      simp at hs
      exact absurd hx (not_lt.mpr hs)
    · rfl

/-- Claim C4: the score never decreases on a tick; while playing it grows
by exactly the number of pipes not yet marked passed whose right edge lies
strictly left of the bird after the pipes advance, and every such pipe ends
the tick marked passed, so it cannot be counted again. -/
theorem C4_score_increments :
    (∀ (r : ℚ) (t : EngineState), t.score ≤ (tick r t).score) ∧
    (∀ (r : ℚ) (t : EngineState), t.gameState = .playing →
        (tick r t).score = t.score +
          List.countP (fun p => decide (p.passed = false ∧ p.x + PIPE_WIDTH < t.bird.x))
            (spawnPipes r (cullPipes (movePipes t.pipes)))) ∧
    (∀ (r : ℚ) (t : EngineState), t.gameState = .playing →
        ∀ p ∈ (tick r t).pipes, p.x + PIPE_WIDTH < t.bird.x → p.passed = true) := by
  refine ⟨?_, ?_, ?_⟩
  · intro r t
    by_cases h : t.gameState = .playing
    · rw [tick_score r t h]
      exact Nat.le_add_right _ _
    · rw [tick_not_playing r t h]
  · intro r t h
    rw [tick_score r t h]
    congr 1
    unfold passCount
    exact List.countP_congr fun p _ => by rw [scoresNow_eq]
  · intro r t h
    rw [tick_pipes r t h]
    exact markPassed_marks t.bird.x _

/-- Claim C4 witness: from `scoringState` the tick scores exactly the one
pipe whose right edge has just crossed the bird. -/
theorem C4_witness :
    (tick 0 scoringState).score = scoringState.score +
      List.countP (fun p => decide (p.passed = false ∧ p.x + PIPE_WIDTH < scoringState.bird.x))
        (spawnPipes 0 (cullPipes (movePipes scoringState.pipes))) :=
  C4_score_increments.2.1 0 scoringState rfl

theorem markPassed_x (bx : ℚ) (l : List Pipe) :
    (markPassed bx l).map Pipe.x = l.map Pipe.x := by
  unfold markPassed
  rw [List.map_map]
  apply List.map_congr_left
  intro a _
  by_cases hs : scoresNow bx a = true <;> simp [hs]

theorem getLast_is_max :
    ∀ {l : List Pipe}, List.Pairwise (fun a b => a.x ≤ b.x) l →
      ∀ (hne : l ≠ []) (q : Pipe), q ∈ l → q.x ≤ (l.getLast hne).x := by
  intro l
  induction l with
  | nil => intro _ hne; exact absurd rfl hne
  | cons a t ih =>
    intro h hne q hq
    rcases List.mem_cons.mp hq with rfl | hq
    · cases t with
      | nil => exact le_refl _
      | cons b t2 =>
        rw [List.getLast_cons (List.cons_ne_nil b t2)]
        exact (List.pairwise_cons.mp h).1 _ (List.getLast_mem (List.cons_ne_nil b t2))
    · cases t with
      | nil => simp at hq
      | cons b t2 =>
        rw [List.getLast_cons (List.cons_ne_nil b t2)]
        exact ih (List.pairwise_cons.mp h).2 (List.cons_ne_nil b t2) q hq

theorem needSpawn_iff {l : List Pipe} (h : List.Pairwise (fun a b => a.x ≤ b.x) l) :
    needSpawn l = true ↔
      l = [] ∨ ∃ m ∈ l, (∀ q ∈ l, q.x ≤ m.x) ∧ m.x < CANVAS_WIDTH - 200 := by
  by_cases hne : l = []
  · subst hne
    simp [needSpawn]
  · unfold needSpawn
    rw [List.getLast?_eq_getLast_of_ne_nil hne]
    dsimp only
    rw [decide_eq_true_eq]
    constructor
    · intro hlt
      exact Or.inr ⟨l.getLast hne, List.getLast_mem hne, getLast_is_max h hne, hlt⟩
    · rintro (rfl | ⟨m, hm, hmax, hlt⟩)
      · exact absurd rfl hne
      · exact lt_of_le_of_lt (hmax _ (List.getLast_mem hne)) hlt

theorem pipeOrder_movePipes {l : List Pipe}
    (h : List.Pairwise (fun a b => a.x ≤ b.x) l) :
    List.Pairwise (fun a b => a.x ≤ b.x) (movePipes l) := by
  unfold movePipes
  rw [List.pairwise_map]
  exact h.imp fun hab => sub_le_sub_right hab PIPE_SPEED

/-- Claim C5: while playing, the tick advances every pipe by `PIPE_SPEED`,
removes exactly those whose advanced `x` is at most `-PIPE_WIDTH`, appends
one generated pipe (at `x = CANVAS_WIDTH`, unpassed) exactly when the kept
list is empty or its rightmost pipe sits left of `CANVAS_WIDTH - 200`, and
changes nothing else about the pipes' positions (the subsequent scoring
pass only flips `passed` flags).  The pipe list of a reachable state is
sorted by `x`, which the hypothesis records. -/
theorem C5_pipe_stream (r : ℚ) (s : EngineState) (hplay : s.gameState = .playing)
    (hsorted : List.Pairwise (fun a b => a.x ≤ b.x) s.pipes) :
    cullPipes (movePipes s.pipes) =
      (s.pipes.map fun p => { p with x := p.x - PIPE_SPEED }).filter
        (fun p => decide (¬ p.x ≤ -PIPE_WIDTH)) ∧
    (generatePipe r).x = CANVAS_WIDTH ∧
    (generatePipe r).passed = false ∧
    (spawnPipes r (cullPipes (movePipes s.pipes)) =
        cullPipes (movePipes s.pipes) ++ [generatePipe r] ↔
      cullPipes (movePipes s.pipes) = [] ∨
        ∃ m ∈ cullPipes (movePipes s.pipes),
          (∀ q ∈ cullPipes (movePipes s.pipes), q.x ≤ m.x) ∧
            m.x < CANVAS_WIDTH - 200) ∧
    (spawnPipes r (cullPipes (movePipes s.pipes)) ≠
        cullPipes (movePipes s.pipes) ++ [generatePipe r] →
      spawnPipes r (cullPipes (movePipes s.pipes)) = cullPipes (movePipes s.pipes)) ∧
    (tick r s).pipes.map Pipe.x =
      (spawnPipes r (cullPipes (movePipes s.pipes))).map Pipe.x := by
  have hsorted2 : List.Pairwise (fun a b => a.x ≤ b.x) (cullPipes (movePipes s.pipes)) :=
    List.Pairwise.sublist (List.filter_sublist _) (pipeOrder_movePipes hsorted)
  refine ⟨?_, rfl, rfl, ?_, ?_, ?_⟩
  · unfold cullPipes movePipes
    apply List.filter_congr
    intro p _
    exact decide_eq_decide.mpr not_le.symm
  · unfold spawnPipes
    constructor
    · intro heq
      by_cases hn : needSpawn (cullPipes (movePipes s.pipes)) = true
      · exact (needSpawn_iff hsorted2).mp hn
      · rw [if_neg hn] at heq
        have hlen := congrArg List.length heq
        simp at hlen
    · intro hcond
      rw [if_pos ((needSpawn_iff hsorted2).mpr hcond)]
  · intro hne
    unfold spawnPipes at hne ⊢
    by_cases hn : needSpawn (cullPipes (movePipes s.pipes)) = true
    · rw [if_pos hn] at hne
      exact absurd rfl hne
    · rw [if_neg hn]
  · rw [tick_pipes r s hplay]
    exact markPassed_x _ _

/-- Claim C5 witness at a concrete sorted playing state. -/
theorem C5_witness :
    (generatePipe 0).x = CANVAS_WIDTH ∧ (generatePipe 0).passed = false :=
  ⟨(C5_pipe_stream 0 scoringState rfl (by simp [scoringState])).2.1,
   (C5_pipe_stream 0 scoringState rfl (by simp [scoringState])).2.2.1⟩

end FlappyBird
